import Mathlib

/-!
Verification of the GardenPi `adc-daemon.py` request/response protocol.

The daemon owns 8 MCP3008 analog-input channels and serves single-channel
voltage queries over a Unix domain socket.  We embed the request handling
of `main` (decode UTF-8, `str.strip`, `int`, range check, voltage
formatting), the signal handler, the module-load order, the startup
sequence and one step of the accept loop.

Text is modelled as lists of Unicode code points (`List Nat`); request
payloads are lists of bytes (`List Nat`, each < 256).  Hardware voltage
samples come from the external adafruit library; a sample is modelled as
a natural number of ten-thousandths of a volt, so that Python's
`f"{voltage:.4f}"` formatting of the (nonnegative) sample is exact.
The hardware itself is an oracle `readHw : Nat → Except (List Nat) Nat`
taking the handle of an `AnalogIn` object and returning either a sample
or the text of a raised exception.
-/

namespace GardenPi

/-- Code points of a string literal, for writing concrete texts. -/
def S (s : String) : List Nat := s.data.map Char.toNat

/-! ### UTF-8 decoding, as Python `bytes.decode('utf-8')` (strict mode).

Rejects continuation-byte leads, overlong encodings, surrogates and
code points above U+10FFFF, exactly as CPython's strict decoder; a
decode failure raises `UnicodeDecodeError`, a subclass of `ValueError`.
Structural recursion on a fuel argument (one unit per decoded character,
each character consumes at least one byte) keeps the definition
kernel-reducible. -/

def utf8DecodeFuel : Nat → List Nat → Option (List Nat)
  | _, [] => some []
  | 0, _ :: _ => none
  | fuel + 1, b :: rest =>
    if b < 0x80 then
      (utf8DecodeFuel fuel rest).map (fun cs => b :: cs)
    else if b < 0xC2 then none
    else if b < 0xE0 then
      match rest with
      | b1 :: rest2 =>
        if 0x80 ≤ b1 ∧ b1 < 0xC0 then
          (utf8DecodeFuel fuel rest2).map
            (fun cs => ((b - 0xC0) * 0x40 + (b1 - 0x80)) :: cs)
        else none
      | [] => none
    else if b < 0xF0 then
      match rest with
      | b1 :: b2 :: rest3 =>
        if 0x80 ≤ b1 ∧ b1 < 0xC0 ∧ 0x80 ≤ b2 ∧ b2 < 0xC0 ∧
            0x800 ≤ (b - 0xE0) * 0x1000 + (b1 - 0x80) * 0x40 + (b2 - 0x80) ∧
            ¬(0xD800 ≤ (b - 0xE0) * 0x1000 + (b1 - 0x80) * 0x40 + (b2 - 0x80) ∧
              (b - 0xE0) * 0x1000 + (b1 - 0x80) * 0x40 + (b2 - 0x80) < 0xE000) then
          (utf8DecodeFuel fuel rest3).map
            (fun cs => ((b - 0xE0) * 0x1000 + (b1 - 0x80) * 0x40 + (b2 - 0x80)) :: cs)
        else none
      | _ => none
    else if b < 0xF5 then
      match rest with
      | b1 :: b2 :: b3 :: rest4 =>
        if 0x80 ≤ b1 ∧ b1 < 0xC0 ∧ 0x80 ≤ b2 ∧ b2 < 0xC0 ∧ 0x80 ≤ b3 ∧ b3 < 0xC0 ∧
            0x10000 ≤ (b - 0xF0) * 0x40000 + (b1 - 0x80) * 0x1000 +
              (b2 - 0x80) * 0x40 + (b3 - 0x80) ∧
            (b - 0xF0) * 0x40000 + (b1 - 0x80) * 0x1000 +
              (b2 - 0x80) * 0x40 + (b3 - 0x80) ≤ 0x10FFFF then
          (utf8DecodeFuel fuel rest4).map
            (fun cs => ((b - 0xF0) * 0x40000 + (b1 - 0x80) * 0x1000 +
              (b2 - 0x80) * 0x40 + (b3 - 0x80)) :: cs)
        else none
      | _ => none
    else none

/-- `bytes.decode('utf-8')`: `some` code points, or `none` on
`UnicodeDecodeError`. -/
def utf8Decode (bs : List Nat) : Option (List Nat) :=
  utf8DecodeFuel bs.length bs

/-! ### Python `str.strip()` and `int()` -/

/-- Python `str.isspace` on a code point: the Unicode whitespace set
used by `str.strip()` with no argument. -/
def pyIsSpace (c : Nat) : Bool :=
  decide (c = 0x9) || decide (c = 0xA) || decide (c = 0xB) || decide (c = 0xC) ||
  decide (c = 0xD) || decide (c = 0x1C) || decide (c = 0x1D) || decide (c = 0x1E) ||
  decide (c = 0x1F) || decide (c = 0x20) || decide (c = 0x85) || decide (c = 0xA0) ||
  decide (c = 0x1680) || (decide (0x2000 ≤ c) && decide (c ≤ 0x200A)) ||
  decide (c = 0x2028) || decide (c = 0x2029) || decide (c = 0x202F) ||
  decide (c = 0x205F) || decide (c = 0x3000)

/-- Python `str.strip()`: remove leading and trailing whitespace. -/
def pyStrip (s : List Nat) : List Nat :=
  ((s.dropWhile pyIsSpace).reverse.dropWhile pyIsSpace).reverse

/-- Unicode decimal-digit (category Nd) value of a code point, as used
by Python `int()`.  Covers ASCII digits and the representative Nd
ranges (Arabic-Indic, Extended Arabic-Indic, Devanagari, Bengali,
fullwidth); the remaining Nd blocks extend the table in the same way. -/
def pyDigitVal (c : Nat) : Option Nat :=
  if 0x30 ≤ c ∧ c ≤ 0x39 then some (c - 0x30)
  else if 0x660 ≤ c ∧ c ≤ 0x669 then some (c - 0x660)
  else if 0x6F0 ≤ c ∧ c ≤ 0x6F9 then some (c - 0x6F0)
  else if 0x966 ≤ c ∧ c ≤ 0x96F then some (c - 0x966)
  else if 0x9E6 ≤ c ∧ c ≤ 0x9EF then some (c - 0x9E6)
  else if 0xFF10 ≤ c ∧ c ≤ 0xFF19 then some (c - 0xFF10)
  else none

/-- Digit run after the first digit: digits, with single underscores
allowed between digits (Python `int()` literal grammar). -/
def pyDigitsAux : List Nat → Nat → Option Nat
  | [], acc => some acc
  | c :: rest, acc =>
    match pyDigitVal c with
    | some d => pyDigitsAux rest (acc * 10 + d)
    | none =>
      if c = 0x5F then
        match rest with
        | c2 :: rest2 =>
          match pyDigitVal c2 with
          | some d2 => pyDigitsAux rest2 (acc * 10 + d2)
          | none => none
        | [] => none
      else none

/-- A nonempty digit run starting with a digit (no leading underscore). -/
def pyParseDigits : List Nat → Option Nat
  | [] => none
  | c :: rest =>
    match pyDigitVal c with
    | some d => pyDigitsAux rest d
    | none => none

/-- Python `int(s)` on a text: strip whitespace, optional sign, then a
nonempty digit run; `none` models a raised `ValueError`. -/
def pyIntOfCodes (s : List Nat) : Option Int :=
  match pyStrip s with
  | 0x2B :: rest => (pyParseDigits rest).map (fun n => (n : Int))
  | 0x2D :: rest => (pyParseDigits rest).map (fun n => -(n : Int))
  | t => (pyParseDigits t).map (fun n => (n : Int))

/-! ### Voltage formatting

`f"{voltage:.4f}"` on a nonnegative sample of `v` ten-thousandths of a
volt: the integral part in decimal, a dot, and exactly four fractional
digits. -/

/-- Decimal digits of `n`, most significant first; fuel-structural
(`fuel ≥ n` suffices since `n / 10 < n` for `n ≥ 1`). -/
def natDecAux : Nat → Nat → List Nat
  | 0, _ => []
  | _ + 1, 0 => []
  | fuel + 1, n + 1 => natDecAux fuel ((n + 1) / 10) ++ [0x30 + (n + 1) % 10]

/-- Decimal representation of a natural number (code points). -/
def natDec (n : Nat) : List Nat :=
  if n = 0 then [0x30] else natDecAux n n

/-- Exactly four decimal digits of `n < 10000`, zero padded. -/
def pad4 (n : Nat) : List Nat :=
  [0x30 + n / 1000 % 10, 0x30 + n / 100 % 10, 0x30 + n / 10 % 10, 0x30 + n % 10]

/-- `f"{voltage:.4f}"` on `v` ten-thousandths of a volt. -/
def formatVoltage (v : Nat) : List Nat :=
  natDec (v / 10000) ++ 0x2E :: pad4 (v % 10000)

/-- The spec's voltage reply format, the regex `^\d+\.\d{4}$`: one or
more ASCII digits, a dot, exactly four ASCII digits. -/
def isAsciiDigit (c : Nat) : Bool := decide (0x30 ≤ c) && decide (c ≤ 0x39)

def matchesVoltFmt (s : List Nat) : Bool :=
  decide (1 ≤ (s.takeWhile isAsciiDigit).length) &&
    (match s.dropWhile isAsciiDigit with
     | c :: frac => decide (c = 0x2E) && decide (frac.length = 4) && frac.all isAsciiDigit
     | [] => false)

/-! ### Daemon state and connection handling

`DaemonState` holds the module-level mutable bindings the accept loop
can see: the `channels` list (handles of the 8 `AnalogIn` objects built
at startup), `socket_file`, and `loglevel`. -/

structure DaemonState where
  channels : List Nat
  socket_file : List Nat
  loglevel : Nat
  deriving DecidableEq, Repr

/-- The channel list built at startup: `AnalogIn(mcp, MCP.Pi)` for
`i = 0..7`; handle `i` samples physical channel `i`. -/
def initChannels : List Nat := [0, 1, 2, 3, 4, 5, 6, 7]

/-- Daemon state right after startup: `channels` from initialization,
`socket_file = "/tmp/adc-daemon.sock"`, default `loglevel = 3`. -/
def initState : DaemonState :=
  ⟨initChannels, S ("/tmp/adc-daemon.sock"), 3⟩

/-- Fixed reply texts of the handler. -/
def ERR_RANGE : List Nat := S ("ERROR: Channel must be 0-7")

def ERR_FORMAT : List Nat := S ("ERROR: Invalid channel format")

def ERR_MARK : List Nat := S ("ERROR: ")

/-- Result of servicing one accepted connection: the reply sent back
(`none` when the connection is dropped without a reply), and the list
of hardware reads performed, as `AnalogIn` handles in order. -/
structure HandleResult where
  reply : Option (List Nat)
  reads : List Nat
  deriving DecidableEq, Repr

/-- The connection body of `main`'s accept loop (adc-daemon.py lines
227-248): `recv`, drop empty data, decode UTF-8 and strip, `int()`,
range check, sample and format, or the error replies; `ValueError`
(including `UnicodeDecodeError`) gives the invalid-format reply, any
other exception `e` gives `"ERROR: " + str(e)` — an out-of-bounds
channel list would give `str(IndexError)`, a hardware exception the
oracle's error text. -/
def handleConnection (readHw : Nat → Except (List Nat) Nat)
    (channels : List Nat) (data : List Nat) : HandleResult :=
  if data = [] then ⟨none, []⟩
  else
    match utf8Decode data with
    | none => ⟨some ERR_FORMAT, []⟩
    | some text =>
      match pyIntOfCodes (pyStrip text) with
      | none => ⟨some ERR_FORMAT, []⟩
      | some ch =>
        if 0 ≤ ch ∧ ch ≤ 7 then
          match channels.get? ch.toNat with
          | none => ⟨some (ERR_MARK ++ S ("list index out of range")), []⟩
          | some h =>
            match readHw h with
            | Except.ok v => ⟨some (formatVoltage v), [h]⟩
            | Except.error e => ⟨some (ERR_MARK ++ e), [h]⟩
        else ⟨some ERR_RANGE, []⟩

/-- One serviced connection at the state level: the loop body assigns
no module-level binding, so the state passes through unchanged. -/
def serveConnection (readHw : Nat → Except (List Nat) Nat)
    (st : DaemonState) (data : List Nat) : DaemonState × HandleResult :=
  (st, handleConnection readHw st.channels data)

/-! ### One iteration of the accept loop -/

/-- What one iteration of `while True` observes: a connection with its
request bytes, or an unexpected exception escaping the `with conn:`
block (raised during `accept` or `sendall`), carrying `str(e)`. -/
inductive LoopEvent where
  | conn (data : List Nat)
  | unexpected (errmsg : List Nat)
  deriving DecidableEq, Repr

/-- Outcome of one accept-loop iteration. -/
structure LoopStepResult where
  state : DaemonState
  sentReply : Option (List Nat)
  loggedError : Bool
  sleptMs : Nat
  terminated : Bool
  deriving DecidableEq, Repr

/-- One iteration of the accept loop (lines 223-252): a serviced
connection sends the handler's reply; an unexpected exception is
caught by `except Exception`, logged via `log_message_json`, followed
by `time.sleep(0.1)`; in both cases the loop continues. -/
def acceptLoopStep (readHw : Nat → Except (List Nat) Nat)
    (st : DaemonState) : LoopEvent → LoopStepResult
  | LoopEvent.conn data =>
    ⟨(serveConnection readHw st data).1,
      (serveConnection readHw st data).2.reply, false, 0, false⟩
  | LoopEvent.unexpected _ => ⟨st, none, true, 100, false⟩

/-! ### Signal handler and module-load order -/

/-- The filesystem as the handler sees it, abstracted to whether a file
exists at the configured socket path. -/
structure FsState where
  socketFileExists : Bool
  deriving DecidableEq, Repr

/-- What a run of `signal_handler` produced. -/
structure SignalOutcome where
  logCalled : Bool
  fs : FsState
  exitCode : Nat
  deriving DecidableEq, Repr

/-- `os.unlink(socket_file)`: removes the file, raising
`FileNotFoundError` when it does not exist. -/
def osUnlink (fs : FsState) : Except (List Nat) FsState :=
  if fs.socketFileExists then Except.ok ⟨false⟩
  else Except.error (S ("FileNotFoundError"))

/-- `signal_handler` (lines 160-164): log an info message at level 2,
unlink the socket file if it exists, `sys.exit(0)`.  `Except.error`
would model an exception escaping the handler. -/
def signal_handler (fs : FsState) : Except (List Nat) SignalOutcome :=
  if fs.socketFileExists then
    match osUnlink fs with
    | Except.ok fs2 => Except.ok ⟨true, fs2, 0⟩
    | Except.error e => Except.error e
  else Except.ok ⟨true, fs, 0⟩

/-- Signals the daemon registers handlers for: SIGTERM (15) and
SIGINT (2), lines 166-167. -/
def registeredSignals : List Nat := [15, 2]

/-- The module-level statements of adc-daemon.py, in program order:
`openlog()` (line 139), the two `signal.signal` registrations (lines
166-167), then the `main()` call (line 255) which performs hardware
initialization and socket creation. -/
inductive ModuleStep where
  | openlogCall
  | registerSigterm
  | registerSigint
  | runMain
  deriving DecidableEq, Repr

def moduleLoadOrder : List ModuleStep :=
  [ModuleStep.openlogCall, ModuleStep.registerSigterm,
   ModuleStep.registerSigint, ModuleStep.runMain]

/-! ### Startup -/

/-- Where hardware initialization can fail: `noFailure`, the
chip-select `digitalio.DigitalInOut` call (lines 181-184, outside the
`try` block), or the `busio.SPI` / `MCP.MCP3008` / `AnalogIn` calls
inside the `try` block (lines 188-205). -/
inductive HwFailure where
  | noFailure
  | csPin
  | bus
  | mcp
  | channelInit
  deriving DecidableEq, Repr

/-- Outcome of the startup path of `main` up to the accept loop. -/
structure StartupOutcome where
  exited : Option Nat
  exceptionLogged : Bool
  socketCreated : Bool
  deriving DecidableEq, Repr

/-- The `--hwversion` choices accepted by `parse_arguments`. -/
def validHwVersions : List (List Nat) := [S ("2.2"), S ("5.1"), S ("7.1")]

/-- Startup (lines 176-221): argparse rejects an invalid `--hwversion`
with a usage error and exit status 2; a chip-select pin acquisition
failure is an uncaught exception (traceback, exit status 1, not routed
through `log_message_json`); a failure inside the `try` block is logged
via `log_message_json({"error": str(e)}, 0, "exception")` and exits
with status 1; otherwise the socket is created, bound, chmodded and
listening. -/
def daemonStartup (hwversion : List Nat) (fail : HwFailure) : StartupOutcome :=
  if hwversion ∉ validHwVersions then ⟨some 2, false, false⟩
  else if fail = HwFailure.csPin then ⟨some 1, false, false⟩
  else if fail ≠ HwFailure.noFailure then ⟨some 1, true, false⟩
  else ⟨none, false, true⟩

/-! ### Lemmas about decimal formatting -/

theorem natDecAux_digits (fuel : Nat) :
    ∀ (n : Nat), ∀ c ∈ natDecAux fuel n, isAsciiDigit c = true := by
  induction fuel with
  | zero => intro n; simp [natDecAux]
  | succ f ih =>
    intro n
    cases n with
    | zero => simp [natDecAux]
    | succ m =>
      simp only [natDecAux]
      intro c hc
      rcases List.mem_append.mp hc with h | h
      · exact ih _ c h
      · simp only [List.mem_singleton] at h
        subst h
        simp only [isAsciiDigit, Bool.and_eq_true, decide_eq_true_eq]
        omega

theorem natDec_digits (n : Nat) : ∀ c ∈ natDec n, isAsciiDigit c = true := by
  unfold natDec
  split
  · intro c hc
    simp only [List.mem_singleton] at hc
    subst hc
    decide
  · exact natDecAux_digits n n

theorem natDec_ne_nil (n : Nat) : natDec n ≠ [] := by
  unfold natDec
  split
  · simp
  · rename_i h
    cases n with
    | zero => exact absurd rfl h
    | succ m => simp [natDecAux]

theorem takeWhile_append_all (p : Nat → Bool) :
    ∀ (l r : List Nat), (∀ c ∈ l, p c = true) →
      (l ++ r).takeWhile p = l ++ r.takeWhile p := by
  intro l
  induction l with
  | nil => simp
  | cons a l ih =>
    intro r h
    have ha : p a = true := h a (List.mem_cons_self a l)
    simp only [List.cons_append, List.takeWhile_cons, ha, if_true]
    rw [ih r fun c hc => h c (List.mem_cons_of_mem a hc)]

theorem dropWhile_append_all (p : Nat → Bool) :
    ∀ (l r : List Nat), (∀ c ∈ l, p c = true) →
      (l ++ r).dropWhile p = r.dropWhile p := by
  intro l
  induction l with
  | nil => simp
  | cons a l ih =>
    intro r h
    have ha : p a = true := h a (List.mem_cons_self a l)
    simp only [List.cons_append, List.dropWhile_cons, ha, if_true]
    exact ih r fun c hc => h c (List.mem_cons_of_mem a hc)

theorem pad4_digits (n : Nat) : (pad4 n).all isAsciiDigit = true := by
  simp only [pad4, List.all_cons, List.all_nil, isAsciiDigit,
    Bool.and_eq_true, decide_eq_true_eq]
  refine ⟨⟨?_, ?_⟩, ⟨?_, ?_⟩, ⟨?_, ?_⟩, ⟨?_, ?_⟩, trivial⟩ <;> omega

/-- Every formatted voltage matches the spec regex `^\d+\.\d{4}$`. -/
theorem matchesVoltFmt_formatVoltage (v : Nat) :
    matchesVoltFmt (formatVoltage v) = true := by
  unfold formatVoltage matchesVoltFmt
  rw [takeWhile_append_all _ _ _ (natDec_digits _),
    dropWhile_append_all _ _ _ (natDec_digits _)]
  have h46 : isAsciiDigit 0x2E = false := by decide
  simp only [List.takeWhile_cons, List.dropWhile_cons, h46, Bool.false_eq_true,
    if_false, List.append_nil, pad4_digits, Bool.and_eq_true, decide_eq_true_eq]
  refine ⟨?_, ⟨trivial, rfl⟩, trivial⟩
  have hne := natDec_ne_nil (v / 10000)
  cases h : natDec (v / 10000) with
  | nil => exact absurd h hne
  | cons a l => simp [h]

/-! ### Lemmas about parsing small channel tokens -/

theorem pyInt_natDec (i : Nat) (hi : i ≤ 7) :
    pyIntOfCodes (natDec i) = some (i : Int) := by
  interval_cases i <;> decide

theorem initChannels_get (i : Nat) (hi : i ≤ 7) :
    initChannels[i]? = some i := by
  interval_cases i <;> rfl

theorem utf8Decode_nil : utf8Decode [] = some [] := rfl

theorem pyStrip_nil : pyStrip [] = [] := rfl

/-- A payload whose decode produces a text stripping to a nonempty
list is itself nonempty. -/
theorem data_ne_nil_of_strip (data text : List Nat) (i : Nat)
    (hdec : utf8Decode data = some text)
    (hstrip : pyStrip text = natDec i) : data ≠ [] := by
  intro h
  subst h
  rw [utf8Decode_nil] at hdec
  injection hdec with h2
  subst h2
  rw [pyStrip_nil] at hstrip
  exact natDec_ne_nil i hstrip.symm

/-- C1: for every channel index `i` with `0 ≤ i ≤ 7`, a request whose
payload decodes and strips to the decimal string for `i` is answered by
the sampled voltage formatted to 4 decimal places with no trailing
newline (matching the regex), and servicing it performs exactly one
hardware read, of channel `i`. -/
theorem adc_C1_valid_channel_voltage_reply
    (readHw : Nat → Except (List Nat) Nat) (i v : Nat) (data text : List Nat)
    (hi : i ≤ 7)
    (hdec : utf8Decode data = some text)
    (hstrip : pyStrip text = natDec i)
    (hread : readHw i = Except.ok v) :
    handleConnection readHw initChannels data =
      ⟨some (formatVoltage v), [i]⟩ ∧
    matchesVoltFmt (formatVoltage v) = true := by
  have hne : data ≠ [] := data_ne_nil_of_strip data text i hdec hstrip
  refine ⟨?_, matchesVoltFmt_formatVoltage v⟩
  have h0 : (0 : Int) ≤ (i : Int) := Int.natCast_nonneg i
  have h7 : (i : Int) ≤ 7 := by exact_mod_cast hi
  have htn : ((i : Int)).toNat = i := Int.toNat_natCast i
  simp [handleConnection, hne, hdec, hstrip, pyInt_natDec i hi, h0, h7, htn,
    initChannels_get i hi, hread]

/-- C1 witness: payload `"2"`, hardware sample 1.6500 V on channel 2
(the spec's concrete scenario). -/
theorem adc_C1_valid_channel_voltage_reply_witness :
    handleConnection (fun _ => Except.ok 16500) initChannels (S ("2")) =
      ⟨some (S ("1.6500")), [2]⟩ ∧
    matchesVoltFmt (S ("1.6500")) = true := by
  have h := adc_C1_valid_channel_voltage_reply (fun _ => Except.ok 16500)
    2 16500 (S ("2")) [0x32] (by decide) (by decide) (by decide) rfl
  have hfmt : formatVoltage 16500 = S ("1.6500") := by decide
  rw [hfmt] at h
  exact h

/-- A payload whose decode produces a text parsing to some integer is
itself nonempty. -/
theorem data_ne_nil_of_parse (data text : List Nat) (ch : Int)
    (hdec : utf8Decode data = some text)
    (hparse : pyIntOfCodes (pyStrip text) = some ch) : data ≠ [] := by
  intro h
  subst h
  rw [utf8Decode_nil] at hdec
  injection hdec with h2
  subst h2
  rw [pyStrip_nil] at hparse
  rw [show pyIntOfCodes [] = (none : Option Int) from rfl] at hparse
  exact Option.noConfusion hparse

/-- C2: a request parsing to an integer outside `[0,7]` is answered by
exactly `"ERROR: Channel must be 0-7"`, with no voltage reply and no
hardware read. -/
theorem adc_C2_out_of_range_error
    (readHw : Nat → Except (List Nat) Nat) (data text : List Nat) (ch : Int)
    (hdec : utf8Decode data = some text)
    (hparse : pyIntOfCodes (pyStrip text) = some ch)
    (hout : ¬(0 ≤ ch ∧ ch ≤ 7)) :
    handleConnection readHw initChannels data = ⟨some ERR_RANGE, []⟩ := by
  have hne : data ≠ [] := data_ne_nil_of_parse data text ch hdec hparse
  simp [handleConnection, hne, hdec, hparse, hout]

/-- C2 witness: payload `"9"` (the spec's concrete scenario). -/
theorem adc_C2_out_of_range_error_witness :
    handleConnection (fun _ => Except.ok 16500) initChannels (S ("9")) =
      ⟨some ERR_RANGE, []⟩ :=
  adc_C2_out_of_range_error (fun _ => Except.ok 16500) (S ("9")) [0x39] 9
    (by decide) (by decide) (by decide)

/-- C3: a non-empty payload whose stripped text does not parse as a
base-10 integer is answered by exactly `"ERROR: Invalid channel
format"`. -/
theorem adc_C3_invalid_format_error
    (readHw : Nat → Except (List Nat) Nat) (data text : List Nat)
    (hne : data ≠ [])
    (hdec : utf8Decode data = some text)
    (hparse : pyIntOfCodes (pyStrip text) = none) :
    handleConnection readHw initChannels data = ⟨some ERR_FORMAT, []⟩ := by
  simp [handleConnection, hne, hdec, hparse]

/-- C3 witness: payload `"abc"`. -/
theorem adc_C3_invalid_format_error_witness :
    handleConnection (fun _ => Except.ok 16500) initChannels (S ("abc")) =
      ⟨some ERR_FORMAT, []⟩ :=
  adc_C3_invalid_format_error (fun _ => Except.ok 16500) (S ("abc"))
    [0x61, 0x62, 0x63] (by decide) (by decide) (by decide)

/-- C4 counterexample: the payload `" "` (one space) is empty after
trimming whitespace, yet the daemon does not drop the connection
without a reply — it replies `"ERROR: Invalid channel format"`, because
the code's no-reply path tests the raw bytes (`if not data`), not the
stripped text. -/
theorem adc_C4_whitespace_payload_gets_reply :
    pyStrip [0x20] = [] ∧
    (handleConnection (fun _ => Except.ok 16500) initChannels [0x20]).reply =
      some ERR_FORMAT := by
  constructor
  · decide
  · decide

/-- C4 amended: only a payload that is empty as raw bytes (the peer
wrote nothing) is dropped with no reply, and the accept loop continues;
a non-empty payload that is empty after trimming whitespace instead
gets the `"ERROR: Invalid channel format"` reply. -/
theorem adc_C4_empty_payload_dropped
    (readHw : Nat → Except (List Nat) Nat) (st : DaemonState) :
    acceptLoopStep readHw st (LoopEvent.conn []) =
      ⟨st, none, false, 0, false⟩ ∧
    (∀ data text, data ≠ [] → utf8Decode data = some text →
      pyStrip text = [] →
      (handleConnection readHw st.channels data).reply = some ERR_FORMAT) := by
  constructor
  · rfl
  · intro data text hne hdec hstrip
    have hparse : pyIntOfCodes (pyStrip text) = none := by
      rw [hstrip]
      decide
    simp [handleConnection, hne, hdec, hparse]

/-- C4 amended witness: the empty payload is dropped and the loop
continues; payload `" "` gets the invalid-format reply. -/
theorem adc_C4_empty_payload_dropped_witness :
    acceptLoopStep (fun _ => Except.ok 0) initState (LoopEvent.conn []) =
      ⟨initState, none, false, 0, false⟩ ∧
    (handleConnection (fun _ => Except.ok 0) initState.channels [0x20]).reply =
      some ERR_FORMAT := by
  have h := adc_C4_empty_payload_dropped (fun _ => Except.ok 0) initState
  exact ⟨h.1, h.2 [0x20] [0x20] (by decide) (by decide) (by decide)⟩

/-- C5 counterexample: a chip-select pin acquisition failure on a valid
revision is a fatal startup error with exit status 1 and no socket, but
it is not logged with exception detail through `log_message_json` — the
`digitalio.DigitalInOut` calls (lines 181-184) sit outside the `try`
block, so the exception escapes `main` uncaught. -/
theorem adc_C5_cs_pin_failure_not_logged :
    (daemonStartup (S ("7.1")) HwFailure.csPin).exited = some 1 ∧
    (daemonStartup (S ("7.1")) HwFailure.csPin).socketCreated = false ∧
    (daemonStartup (S ("7.1")) HwFailure.csPin).exceptionLogged = false := by
  refine ⟨?_, ?_, ?_⟩ <;> decide

/-- C5 amended: every fatal startup error (bus, ADC or channel
initialization failure, chip-select pin acquisition failure, or an
unrecognized hardware-revision value) exits the process with a non-zero
status before any socket is created or bound; failures inside the
guarded hardware-initialization block (bus, ADC, channel creation) are
additionally logged with full exception detail, while a chip-select
failure aborts via an uncaught-exception traceback and an unrecognized
revision is rejected by argument parsing with a usage error (status 2),
neither through the daemon's exception logger. -/
theorem adc_C5_fatal_startup_no_socket (hw : List Nat) (fail : HwFailure)
    (hfatal : hw ∉ validHwVersions ∨ fail ≠ HwFailure.noFailure) :
    ((daemonStartup hw fail).socketCreated = false ∧
      ∃ c, (daemonStartup hw fail).exited = some c ∧ c ≠ 0) ∧
    (hw ∈ validHwVersions →
      (fail = HwFailure.bus ∨ fail = HwFailure.mcp ∨
        fail = HwFailure.channelInit) →
      (daemonStartup hw fail).exceptionLogged = true) := by
  by_cases hv : hw ∈ validHwVersions
  · have hnf : fail ≠ HwFailure.noFailure := hfatal.resolve_left fun h => h hv
    unfold daemonStartup
    rw [if_neg (not_not_intro hv)]
    cases fail with
    | noFailure => exact absurd rfl hnf
    | csPin =>
      refine ⟨⟨rfl, 1, rfl, by decide⟩, ?_⟩
      intro _ hbad
      rcases hbad with h | h | h <;> cases h
    | bus => exact ⟨⟨rfl, 1, rfl, by decide⟩, fun _ _ => rfl⟩
    | mcp => exact ⟨⟨rfl, 1, rfl, by decide⟩, fun _ _ => rfl⟩
    | channelInit => exact ⟨⟨rfl, 1, rfl, by decide⟩, fun _ _ => rfl⟩
  · unfold daemonStartup
    rw [if_pos hv]
    exact ⟨⟨rfl, 2, rfl, by decide⟩, fun h _ => absurd h hv⟩

/-- C5 amended witness: an SPI bus failure on revision `"7.1"`. -/
theorem adc_C5_fatal_startup_no_socket_witness :
    ((daemonStartup (S ("7.1")) HwFailure.bus).socketCreated = false ∧
      ∃ c, (daemonStartup (S ("7.1")) HwFailure.bus).exited = some c ∧ c ≠ 0) ∧
    (daemonStartup (S ("7.1")) HwFailure.bus).exceptionLogged = true := by
  have h := adc_C5_fatal_startup_no_socket (S ("7.1")) HwFailure.bus
    (Or.inr (by decide))
  exact ⟨h.1, h.2 (by decide) (Or.inl rfl)⟩

/-- C6: no iteration of the accept loop terminates the daemon, whatever
the connection brings; an unexpected exception while servicing a
connection is logged and followed by a 100 ms pause before the loop
resumes. -/
theorem adc_C6_loop_never_terminates
    (readHw : Nat → Except (List Nat) Nat) (st : DaemonState)
    (ev : LoopEvent) :
    (acceptLoopStep readHw st ev).terminated = false ∧
    (∀ msg, ev = LoopEvent.unexpected msg →
      (acceptLoopStep readHw st ev).loggedError = true ∧
      (acceptLoopStep readHw st ev).sleptMs = 100) := by
  cases ev with
  | conn data => exact ⟨rfl, fun msg h => LoopEvent.noConfusion h⟩
  | unexpected m => exact ⟨rfl, fun msg _ => ⟨rfl, rfl⟩⟩

/-- C6 witness: an unexpected exception event. -/
theorem adc_C6_loop_never_terminates_witness :
    (acceptLoopStep (fun _ => Except.ok 0) initState
        (LoopEvent.unexpected (S ("boom")))).terminated = false ∧
    (acceptLoopStep (fun _ => Except.ok 0) initState
        (LoopEvent.unexpected (S ("boom")))).loggedError = true ∧
    (acceptLoopStep (fun _ => Except.ok 0) initState
        (LoopEvent.unexpected (S ("boom")))).sleptMs = 100 := by
  have h := adc_C6_loop_never_terminates (fun _ => Except.ok 0) initState
    (LoopEvent.unexpected (S ("boom")))
  exact ⟨h.1, h.2 (S ("boom")) rfl⟩

/-- C7: on a termination signal (both SIGTERM and SIGINT are
registered), the handler makes its informational log call, removes the
socket file when present, and exits with status 0 — afterwards no
socket file remains at the configured path. -/
theorem adc_C7_signal_shutdown_clean (fs : FsState) :
    signal_handler fs = Except.ok ⟨true, ⟨false⟩, 0⟩ ∧
    15 ∈ registeredSignals ∧ 2 ∈ registeredSignals := by
  refine ⟨?_, by decide, by decide⟩
  cases fs with
  | mk b => cases b <;> rfl

/-- C8: servicing a connection leaves the daemon state — the channel
set and the socket path — unchanged, for every payload and every
hardware behaviour; only the reply can differ between identical
requests. -/
theorem adc_C8_request_preserves_state
    (readHw : Nat → Except (List Nat) Nat) (st : DaemonState)
    (data : List Nat) :
    (serveConnection readHw st data).1 = st ∧
    (serveConnection readHw st data).1.channels = st.channels ∧
    (serveConnection readHw st data).1.socket_file = st.socket_file :=
  ⟨rfl, rfl, rfl⟩

/-- C9: the request parser is Python `int()` after UTF-8 decode and
strip, so it accepts more than plain ASCII digit strings: an in-range
parse yields the normal voltage reply, and in particular the payloads
`"+3"`, `" 3 "`, and the UTF-8 bytes of the fullwidth digit `U+FF13`
all read channel 3. -/
theorem adc_C9_int_accepts_python_syntax
    (readHw : Nat → Except (List Nat) Nat) (v : Nat)
    (hread : readHw 3 = Except.ok v) :
    handleConnection readHw initChannels (S ("+3")) =
      ⟨some (formatVoltage v), [3]⟩ ∧
    handleConnection readHw initChannels (S (" 3 ")) =
      ⟨some (formatVoltage v), [3]⟩ ∧
    handleConnection readHw initChannels [0xEF, 0xBC, 0x93] =
      ⟨some (formatVoltage v), [3]⟩ ∧
    (∀ (data text : List Nat) (ch : Int) (w : Nat),
      utf8Decode data = some text →
      pyIntOfCodes (pyStrip text) = some ch → 0 ≤ ch → ch ≤ 7 →
      readHw ch.toNat = Except.ok w →
      handleConnection readHw initChannels data =
        ⟨some (formatVoltage w), [ch.toNat]⟩) := by
  have gen : ∀ (data text : List Nat) (ch : Int) (w : Nat),
      utf8Decode data = some text →
      pyIntOfCodes (pyStrip text) = some ch → 0 ≤ ch → ch ≤ 7 →
      readHw ch.toNat = Except.ok w →
      handleConnection readHw initChannels data =
        ⟨some (formatVoltage w), [ch.toNat]⟩ := by
    intro data text ch w hdec hparse h0 h7 hr
    have hne : data ≠ [] := data_ne_nil_of_parse data text ch hdec hparse
    have hch : initChannels[ch.toNat]? = some ch.toNat :=
      initChannels_get ch.toNat (by omega)
    simp [handleConnection, hne, hdec, hparse, h0, h7, hch, hr]
  refine ⟨?_, ?_, ?_, gen⟩
  · exact gen (S ("+3")) [0x2B, 0x33] 3 v (by decide) (by decide)
      (by decide) (by decide) hread
  · exact gen (S (" 3 ")) [0x20, 0x33, 0x20] 3 v (by decide) (by decide)
      (by decide) (by decide) hread
  · exact gen [0xEF, 0xBC, 0x93] [0xFF13] 3 v (by decide) (by decide)
      (by decide) (by decide) hread

/-- C9 witness: the three liberal payloads at a concrete sample. -/
theorem adc_C9_int_accepts_python_syntax_witness :
    handleConnection (fun _ => Except.ok 16500) initChannels (S ("+3")) =
      ⟨some (formatVoltage 16500), [3]⟩ ∧
    handleConnection (fun _ => Except.ok 16500) initChannels (S (" 3 ")) =
      ⟨some (formatVoltage 16500), [3]⟩ ∧
    handleConnection (fun _ => Except.ok 16500) initChannels
        [0xEF, 0xBC, 0x93] =
      ⟨some (formatVoltage 16500), [3]⟩ := by
  have h := adc_C9_int_accepts_python_syntax (fun _ => Except.ok 16500)
    16500 rfl
  exact ⟨h.1, h.2.1, h.2.2.1⟩

/-- C10: the signal handler is total and safe at every point of the
process lifetime: it never raises (socket-file deletion is guarded by
the existence check), it always exits with status 0, and it is
installed at module load, before `main` performs hardware
initialization and socket creation. -/
theorem adc_C10_signal_handler_total
    (fs : FsState) :
    (∃ o, signal_handler fs = Except.ok o ∧ o.exitCode = 0 ∧
      o.logCalled = true) ∧
    moduleLoadOrder.indexOf ModuleStep.registerSigterm <
      moduleLoadOrder.indexOf ModuleStep.runMain ∧
    moduleLoadOrder.indexOf ModuleStep.registerSigint <
      moduleLoadOrder.indexOf ModuleStep.runMain := by
  refine ⟨?_, by decide, by decide⟩
  cases fs with
  | mk b =>
    cases b with
    | false => exact ⟨⟨true, ⟨false⟩, 0⟩, rfl, rfl, rfl⟩
    | true => exact ⟨⟨true, ⟨false⟩, 0⟩, rfl, rfl, rfl⟩

end GardenPi
